import Mathlib

/-!
Shallow embedding of the shein-manager order-ledger backend
(src/index.js, plus the historical local-currency variant in
src/unnamed/part_000).  The relational store is modelled as an explicit
state (`DB`); each Express route handler becomes a pure function from the
request, the current store and the outcome of the external rate oracle to
a response and the next store.  JSON values in requests and responses are
modelled by `Json`; the JavaScript notions of truthiness, `parseFloat`,
`x || 0` and `toFixed(2)` are embedded explicitly.

Note on route dispatch: `src/index.js` registers `POST /api/orders`
twice (lines 48 and 97).  Express dispatches a request to the first
registered matching handler, and that handler always ends the response
without calling `next()`, so the first registration (lines 48-87) is the
effective create-order operation and the second (lines 97-153) is
unreachable.  Both are embedded: `createOrder` is the effective handler,
`createOrderV2` the shadowed one.
-/

namespace Shein

/-- JSON values as they occur in request bodies and response bodies. -/
inductive Json where
  | num : ℚ → Json
  | str : String → Json
  | bool : Bool → Json
  | null : Json
deriving Repr, DecidableEq

/-- JavaScript truthiness of a `Json` value (0, "", null, false are falsy). -/
def Json.truthy : Json → Bool
  | .num q => q ≠ 0
  | .str s => s ≠ ""
  | .bool b => b
  | .null => false

/-- Truthiness of an optional field of an object: an absent field
(`undefined`) is falsy. -/
def jsTruthy : Option Json → Bool
  | none => false
  | some v => v.truthy

/-- Digits-prefix of a character list. -/
def takeDigits (cs : List Char) : List Char × List Char :=
  (cs.takeWhile Char.isDigit, cs.dropWhile Char.isDigit)

/-- Value of a digit string. -/
def digitsToNat (ds : List Char) : Nat :=
  ds.foldl (fun a c => a * 10 + (c.toNat - 48)) 0

/-- JavaScript `parseFloat` on a string, restricted to the sign /
decimal-point grammar (no exponent): skip leading spaces, read an
optional sign, digits, an optional fractional part, and ignore any
trailing characters; `none` models the `NaN` result when no digit is
read. -/
def parseFloatStr (s : String) : Option ℚ :=
  let cs := s.data.dropWhile (fun c => c = ' ')
  let signAndRest : ℚ × List Char :=
    match cs with
    | '-' :: rest => (-1, rest)
    | '+' :: rest => (1, rest)
    | _ => (1, cs)
  let sign := signAndRest.1
  let cs1 := signAndRest.2
  let ip := (takeDigits cs1).1
  let rest := (takeDigits cs1).2
  let fp : List Char :=
    match rest with
    | '.' :: r => (takeDigits r).1
    | _ => []
  if ip.isEmpty && fp.isEmpty then none
  else some (sign * ((digitsToNat ip : ℚ) + (digitsToNat fp : ℚ) / 10 ^ fp.length))

/-- JavaScript `parseFloat` on an arbitrary value: a number parses to
itself, a string through `parseFloatStr`, anything else to `NaN`
(modelled as `none`). -/
def parseFloatJs : Json → Option ℚ
  | .num q => some q
  | .str s => parseFloatStr s
  | _ => none

/-- Outcome of the HTTPS call to the exchange-rate oracle:
`some r` models a response whose body carries `conversion_rate = r`;
`none` models every failure mode (network error, malformed body,
missing `conversion_rate` field). -/
abbrev Oracle := Option ℚ

/-- getDollarRate from src/index.js lines 24-39: on a truthy
`conversion_rate` add the 0.18 bank spread; on any failure (or a falsy
rate field, which the guard rejects and the catch absorbs) return the
hardcoded fallback 26.60. -/
def getDollarRate (oracle : Oracle) : ℚ :=
  match oracle with
  | some r => if r ≠ 0 then r + 18 / 100 else 266 / 10
  | none => 266 / 10

/-- An orders row.  Nullable columns are `Option`; `exchange_rate` is
`Option ℚ` with `none` standing for a stored `NaN` (Postgres `numeric`
accepts `NaN`, which is what `parseFloat` of an unparseable custom rate
produces).  The schema defaults `freight_cost_hnl` and
`selling_price_hnl` to 0 (spec data model; the DDL is not in src/). -/
structure Order where
  id : Nat
  purchase_date : Option String
  original_amount : Option ℚ
  currency : Option String
  exchange_rate : Option ℚ
  freight_cost_hnl : ℚ
  selling_price_hnl : ℚ
deriving Repr, DecidableEq

/-- A trackings row. -/
structure Tracking where
  order_id : Nat
  tracking_number : Option String
  carrier : Option String
deriving Repr, DecidableEq

/-- The relational store: the two tables plus the id sequence feeding
`orders.id`. -/
structure DB where
  nextId : Nat
  orders : List Order
  trackings : List Tracking
deriving Repr, DecidableEq

/-- An HTTP response: status code and the JSON object body as an
ordered field list. -/
structure Resp where
  status : Nat
  fields : List (String × Json)
deriving Repr, DecidableEq

/-- One element of the `trackings` array of a create-order request. -/
structure TrackInput where
  tracking_number : Option String
  carrier : Option String
deriving Repr, DecidableEq

/-- Body of a `POST /api/orders` request (fields absent from the JSON
body are `none`). -/
structure CreateReq where
  purchase_date : Option String
  original_amount : Option ℚ
  currency : Option String
  trackings : Option (List TrackInput)
  custom_rate : Option Json
deriving Repr, DecidableEq

/-- Rate resolution of the effective handler (src/index.js lines 56-60):
`let rate = 1; if (currency === 'USD') rate = custom_rate ?
parseFloat(custom_rate) : await getDollarRate()`. -/
def resolveRate (req : CreateReq) (oracle : Oracle) : Option ℚ :=
  if req.currency = some "USD" then
    match req.custom_rate with
    | some v => if v.truthy then parseFloatJs v else some (getDollarRate oracle)
    | none => some (getDollarRate oracle)
  else some 1

/-- The orders row the effective handler inserts (src/index.js lines
62-66); freight and selling price take their schema defaults. -/
def newOrderOf (db : DB) (req : CreateReq) (oracle : Oracle) : Order :=
  { id := db.nextId
    purchase_date := req.purchase_date
    original_amount := req.original_amount
    currency := req.currency
    exchange_rate := resolveRate req oracle
    freight_cost_hnl := 0
    selling_price_hnl := 0 }

/-- The trackings row inserted for one input element by the effective
handler (src/index.js lines 71-74): fields are passed through as-is. -/
def mkTracking (oid : Nat) (t : TrackInput) : Tracking :=
  { order_id := oid, tracking_number := t.tracking_number, carrier := t.carrier }

/-- The tracking-insert loop (src/index.js lines 69-76) under a failure
model: `failIdx = some i` with `i` in range means the i-th INSERT
raises, aborting the loop; `none` (or an out-of-range index) means every
INSERT succeeds and yields the rows in input order. -/
def insertTrackings (oid : Nat) (ts : List TrackInput) (failIdx : Option Nat) :
    Option (List Tracking) :=
  match failIdx with
  | some i => if i < ts.length then none else some (ts.map (mkTracking oid))
  | none => some (ts.map (mkTracking oid))

/-- The `trackings` list the handler iterates over: the guard
`if (trackings && trackings.length > 0)` makes an absent list behave
like an empty one. -/
def reqTrackList (req : CreateReq) : List TrackInput :=
  match req.trackings with
  | some l => l
  | none => []

/-- Effective `POST /api/orders` handler (src/index.js lines 48-87, the
first registration): BEGIN; resolve the rate; INSERT the order; INSERT
each tracking in input order; COMMIT and answer
`{success, message, orderId}`; on any insert failure ROLLBACK (the
store is restored unchanged) and answer 500 with the error message. -/
def createOrder (db : DB) (req : CreateReq) (oracle : Oracle) (failIdx : Option Nat) :
    Resp × DB :=
  let oid := db.nextId
  match insertTrackings oid (reqTrackList req) failIdx with
  | some newTs =>
      ({ status := 200
         fields := [("success", .bool true), ("message", .str "Pedido guardado"),
                    ("orderId", .num oid)] },
       { nextId := db.nextId + 1
         orders := db.orders ++ [newOrderOf db req oracle]
         trackings := db.trackings ++ newTs })
  | none =>
      ({ status := 500, fields := [("error", .str "tracking insert failed")] }, db)

/-- `GET /api/rate` (src/index.js lines 42-45). -/
def rateQuote (oracle : Oracle) : Resp :=
  { status := 200, fields := [("rate", .num (getDollarRate oracle))] }

/-- Rounding to the nearest integer, ties away from zero, as
`toFixed` rounds a non-negative amount scaled by 100. -/
def roundHalfAway (q : ℚ) : Int :=
  if 0 ≤ q then ⌊q + 1 / 2⌋ else -⌊-q + 1 / 2⌋

/-- Left-pad a two-digit fraction. -/
def pad2 (n : Nat) : String :=
  if n < 10 then "0" ++ toString n else toString n

/-- JavaScript `Number.prototype.toFixed(2)`: render with exactly two
decimal places. -/
def toFixed2 (q : ℚ) : String :=
  let n := roundHalfAway (q * 100)
  let s := toString (n.natAbs / 100) ++ "." ++ pad2 (n.natAbs % 100)
  if n < 0 then "-" ++ s else s

/-- Truthiness of an optional string (absent and "" are falsy). -/
def strTruthy : Option String → Bool
  | none => false
  | some s => s ≠ ""

/-- Truthiness of an optional numeric field (absent and 0 are falsy). -/
def numTruthy : Option ℚ → Bool
  | none => false
  | some q => q ≠ 0

/-- `track.carrier || 'Desconocido'` of the shadowed handler. -/
def carrierOrDefault (c : Option String) : Option String :=
  if strTruthy c then c else some "Desconocido"

/-- The trackings row inserted by the shadowed handler (src/index.js
line 131): the carrier defaults to "Desconocido" when falsy. -/
def mkTrackingV2 (oid : Nat) (t : TrackInput) : Tracking :=
  { order_id := oid, tracking_number := t.tracking_number,
    carrier := carrierOrDefault t.carrier }

/-- The tracking-insert loop of the shadowed handler (src/index.js lines
126-133) under the same failure model as `insertTrackings`. -/
def insertTrackingsV2 (oid : Nat) (ts : List TrackInput) (failIdx : Option Nat) :
    Option (List Tracking) :=
  match failIdx with
  | some i => if i < ts.length then none else some (ts.map (mkTrackingV2 oid))
  | none => some (ts.map (mkTrackingV2 oid))

/-- Shadowed second `POST /api/orders` registration (src/index.js lines
97-153): validate that `purchase_date` and `original_amount` are truthy
(else 400 "Faltan datos obligatorios"), resolve the rate without any
custom-rate override, insert the order and its trackings in one
transaction, and answer 201 with `order_id`, `tasa_usada` and
`total_en_lempiras = (original_amount * exchange_rate).toFixed(2)`.
Express never dispatches to this handler because the registration at
line 48 precedes it. -/
def createOrderV2 (db : DB) (req : CreateReq) (oracle : Oracle) (failIdx : Option Nat) :
    Resp × DB :=
  if !strTruthy req.purchase_date || !numTruthy req.original_amount then
    ({ status := 400,
       fields := [("error", .str "Faltan datos obligatorios (fecha o monto)")] }, db)
  else
    let rate : ℚ := if req.currency = some "USD" then getDollarRate oracle else 1
    let oid := db.nextId
    let amount : ℚ := match req.original_amount with | some q => q | none => 0
    let newOrder : Order :=
      { id := oid, purchase_date := req.purchase_date
        original_amount := req.original_amount, currency := req.currency
        exchange_rate := some rate, freight_cost_hnl := 0, selling_price_hnl := 0 }
    match insertTrackingsV2 oid (reqTrackList req) failIdx with
    | some newTs =>
        ({ status := 201
           fields := [("success", .bool true),
                      ("message", .str "Pedido guardado exitosamente"),
                      ("order_id", .num oid), ("tasa_usada", .num rate),
                      ("total_en_lempiras", .str (toFixed2 (amount * rate)))] },
         { nextId := db.nextId + 1
           orders := db.orders ++ [newOrder]
           trackings := db.trackings ++ newTs })
    | none =>
        ({ status := 500,
           fields := [("error", .str "Error interno del servidor")] }, db)

/-- The `trackings` value the listing query aggregates for one order
(src/index.js lines 159-166): `json_agg(json_build_object('n_guia',
t.tracking_number, 'carrier', t.carrier))` over the LEFT JOIN.  Each
pair is the `{n_guia, carrier}` object; an order with no matching
tracking still produces one joined row whose tracking columns are NULL,
so the aggregate is the one-element list `[(none, none)]` — the
`{n_guia: null, carrier: null}` placeholder — rather than `[]`. -/
def aggTrackings (db : DB) (oid : Nat) : List (Option String × Option String) :=
  let matched := db.trackings.filter (fun t => t.order_id = oid)
  if matched.isEmpty then [(none, none)]
  else matched.map (fun t => (t.tracking_number, t.carrier))

/-- Insert an order into a list kept sorted by descending id. -/
def insertByIdDesc (o : Order) : List Order → List Order
  | [] => [o]
  | x :: xs => if x.id ≤ o.id then o :: x :: xs else x :: insertByIdDesc o xs

/-- Sort orders by descending id (`ORDER BY o.id DESC`). -/
def sortByIdDesc : List Order → List Order
  | [] => []
  | x :: xs => insertByIdDesc x (sortByIdDesc xs)

/-- `GET /api/orders` (src/index.js lines 156-171): every order, newest
id first, paired with its aggregated trackings value. -/
def listOrders (db : DB) : List (Order × List (Option String × Option String)) :=
  (sortByIdDesc db.orders).map (fun o => (o, aggTrackings db o.id))

/-- Body of a `PUT /api/orders/:id/financials` request. -/
structure FinReq where
  original_amount : Option ℚ
  freight_cost_hnl : Option ℚ
  selling_price_hnl : Option ℚ
deriving Repr, DecidableEq

/-- `x || 0` for an optional numeric field: absent (and 0 itself) give 0. -/
def jsOr0 : Option ℚ → ℚ
  | none => 0
  | some q => q

/-- The SET clause applied to one row by the financials UPDATE
(src/index.js lines 197-202): exactly `original_amount`,
`freight_cost_hnl` and `selling_price_hnl` are overwritten, the last
two through `|| 0`. -/
def updFinancialsRow (req : FinReq) (o : Order) : Order :=
  { o with original_amount := req.original_amount
           freight_cost_hnl := jsOr0 req.freight_cost_hnl
           selling_price_hnl := jsOr0 req.selling_price_hnl }

/-- `PUT /api/orders/:id/financials` (src/index.js lines 191-207): one
UPDATE over the rows whose id matches (zero rows for an unknown id),
then an unconditional success response. -/
def updateFinancials (db : DB) (id : Nat) (req : FinReq) : Resp × DB :=
  ({ status := 200
     fields := [("success", .bool true), ("message", .str "Pedido actualizado")] },
   { db with
       orders := db.orders.map (fun o => if o.id = id then updFinancialsRow req o else o) })

/-- First DELETE of the delete-order route (src/index.js line 214):
remove every tracking referencing the order id. -/
def deleteTrackingsOf (db : DB) (id : Nat) : DB :=
  { db with trackings := db.trackings.filter (fun t => ¬ t.order_id = id) }

/-- Second DELETE of the delete-order route (src/index.js line 215):
remove the order row itself. -/
def deleteOrderRow (db : DB) (id : Nat) : DB :=
  { db with orders := db.orders.filter (fun o => ¬ o.id = id) }

/-- `DELETE /api/orders/:id` (src/index.js lines 209-221): delete the
trackings first, then the order, then answer success unconditionally
(zero rows affected for an unknown id). -/
def deleteOrder (db : DB) (id : Nat) : Resp × DB :=
  ({ status := 200
     fields := [("success", .bool true), ("message", .str "Pedido eliminado")] },
   deleteOrderRow (deleteTrackingsOf db id) id)

/-- `POST /api/orders/:id/tracking` (src/index.js lines 175-188):
unconditional INSERT of one tracking row. -/
def addTracking (db : DB) (id : Nat) (t : TrackInput) : Resp × DB :=
  ({ status := 200
     fields := [("success", .bool true), ("message", .str "Nuevo tracking agregado")] },
   { db with trackings := db.trackings ++ [mkTracking id t] })

/-! Concrete fixtures used to evaluate the handlers on explicit inputs. -/

/-- The empty store. -/
def db0 : DB := { nextId := 1, orders := [], trackings := [] }

/-- A first tracking input. -/
def trackA : TrackInput := { tracking_number := some "TRK1", carrier := some "UPS" }

/-- A second tracking input. -/
def trackB : TrackInput := { tracking_number := some "TRK2", carrier := some "DHL" }

/-- A local-currency create request carrying two trackings. -/
def reqTwoTracks : CreateReq :=
  { purchase_date := some "2024-01-01", original_amount := some 100,
    currency := some "HNL", trackings := some [trackA, trackB], custom_rate := none }

/-- The spec §8 example request: USD with custom rate "25.00". -/
def reqUsdCustom : CreateReq :=
  { purchase_date := some "2024-01-01", original_amount := some 100,
    currency := some "USD", trackings := none, custom_rate := some (.str "25.00") }

/-- A USD create request with no custom rate. -/
def reqUsdNoCustom : CreateReq :=
  { purchase_date := some "2024-01-01", original_amount := some 100,
    currency := some "USD", trackings := none, custom_rate := none }

/-- A USD create request whose custom rate is the negative string "-5". -/
def reqUsdNegRate : CreateReq :=
  { purchase_date := some "2024-01-01", original_amount := some 100,
    currency := some "USD", trackings := none, custom_rate := some (.str "-5") }

/-- A USD create request whose custom rate is present but falsy (the number 0). -/
def reqUsdZeroRate : CreateReq :=
  { purchase_date := some "2024-01-01", original_amount := some 100,
    currency := some "USD", trackings := none, custom_rate := some (.num 0) }

/-- A create request with `original_amount` absent. -/
def reqMissingAmount : CreateReq :=
  { purchase_date := some "2024-01-01", original_amount := none,
    currency := none, trackings := none, custom_rate := none }

/-- A stored order that has no trackings. -/
def orderNoTracks : Order :=
  { id := 1, purchase_date := some "2024-01-01", original_amount := some 100,
    currency := some "HNL", exchange_rate := some 1,
    freight_cost_hnl := 0, selling_price_hnl := 0 }

/-- A store holding exactly `orderNoTracks` and no tracking rows. -/
def dbOneOrder : DB := { nextId := 2, orders := [orderNoTracks], trackings := [] }

/-- A stored tracking row referencing order 1. -/
def trackRow1 : Tracking :=
  { order_id := 1, tracking_number := some "TRK1", carrier := some "UPS" }

/-- A store holding order 1 together with one tracking row for it. -/
def dbOrderWithTrack : DB :=
  { nextId := 2, orders := [orderNoTracks], trackings := [trackRow1] }

/-- A financials-update request omitting the freight cost. -/
def finReq0 : FinReq :=
  { original_amount := some 250, freight_cost_hnl := none, selling_price_hnl := some 40 }

end Shein

namespace Shein

section

attribute [local semireducible] Rat.add Rat.mul Rat.inv Rat.sub

/-- C3: code bug in the listing aggregation — an order with zero trackings
is returned with the one-element `{n_guia: null, carrier: null}` placeholder
collection produced by `json_agg` over the unmatched LEFT JOIN row, not with
the empty collection the contract requires (the order itself is not
dropped). -/
theorem listing_zero_trackings_placeholder :
    listOrders dbOneOrder = [(orderNoTracks, [(none, none)])] ∧
    aggTrackings dbOneOrder 1 ≠ ([] : List (Option String × Option String)) := by
  decide

/-- C4: code bug — the effective `POST /api/orders` handler (the first
registration, which shadows the validating second registration) performs no
presence check: a request without `original_amount` is not rejected with 400
but proceeds through the transaction and persists an order row, while the
unreachable second registration would have answered 400 and stored
nothing. -/
theorem missing_fields_not_rejected :
    (createOrder db0 reqMissingAmount none none).1.status = 200 ∧
    (createOrder db0 reqMissingAmount none none).2.orders.length = 1 ∧
    (createOrderV2 db0 reqMissingAmount none none).1.status = 400 ∧
    (createOrderV2 db0 reqMissingAmount none none).2 = db0 := by
  decide

/-- C5: code bug — the effective create-order response carries only
`success`, `message` and `orderId`: the rate actually used and the 2-decimal
`total_en_lempiras` promised by the contract appear only in the response of
the shadowed second registration, which Express never dispatches to. -/
theorem response_lacks_rate_and_total :
    (createOrder db0 reqUsdCustom none none).1.fields.map Prod.fst
      = ["success", "message", "orderId"] ∧
    "tasa_usada" ∉ (createOrder db0 reqUsdCustom none none).1.fields.map Prod.fst ∧
    "total_en_lempiras" ∉ (createOrder db0 reqUsdCustom none none).1.fields.map Prod.fst ∧
    (createOrder db0 reqUsdCustom none none).2.orders.map Order.exchange_rate
      = [some 25] ∧
    ("tasa_usada", Json.num (266 / 10))
      ∈ (createOrderV2 db0 reqUsdCustom none none).1.fields ∧
    ("total_en_lempiras", Json.str "2660.00")
      ∈ (createOrderV2 db0 reqUsdCustom none none).1.fields := by
  decide

/-- C6 counterexample: with currency "USD" and `custom_rate = "-5"` — a
value that is not parseable as a positive number — the create-order
operation does not fail with any InvalidRate error: it answers success and
stores the negative rate -5 verbatim. -/
theorem negative_custom_rate_not_rejected :
    (createOrder db0 reqUsdNegRate none none).1.status = 200 ∧
    (createOrder db0 reqUsdNegRate none none).2.orders.map Order.exchange_rate
      = [some (-5)] := by
  decide

/-- C6 amended: for every create-order request with currency "USD" and a
truthy caller-supplied rate, the supplied value is converted with
`parseFloat` and stored verbatim, no oracle call is made (the result is
independent of the oracle outcome), and the operation succeeds; no
positivity or parseability check is performed. -/
theorem custom_rate_stored_verbatim (db : DB) (req : CreateReq) (oracle : Oracle)
    (v : Json) (hcur : req.currency = some "USD") (hcr : req.custom_rate = some v)
    (hv : v.truthy = true) :
    resolveRate req oracle = parseFloatJs v ∧
    (newOrderOf db req oracle).exchange_rate = parseFloatJs v ∧
    (∀ o1 o2 : Oracle, createOrder db req o1 none = createOrder db req o2 none) ∧
    (createOrder db req oracle none).1.status = 200 := by
  have hres : ∀ o : Oracle, resolveRate req o = parseFloatJs v := by
    intro o
    simp [resolveRate, hcur, hcr, hv]
  refine ⟨hres oracle, by simp [newOrderOf, hres oracle], ?_, ?_⟩
  · intro o1 o2
    simp [createOrder, newOrderOf, hres o1, hres o2]
  · simp [createOrder, insertTrackings]

/-- Witness for C6's amended theorem at the spec §8 example request. -/
theorem custom_rate_stored_verbatim_witness :
    resolveRate reqUsdCustom (some 20) = parseFloatJs (.str "25.00") ∧
    createOrder db0 reqUsdCustom none none = createOrder db0 reqUsdCustom (some 30) none ∧
    (createOrder db0 reqUsdCustom (some 20) none).1.status = 200 := by
  obtain ⟨h1, _, h3, h4⟩ :=
    custom_rate_stored_verbatim db0 reqUsdCustom (some 20) (.str "25.00") rfl rfl (by decide)
  exact ⟨h1, h3 none (some 30), h4⟩

/-- C1: a successful create-order call with N trackings persists exactly one
new order row and exactly the N tracking rows referencing the new order id,
in input order; if the i-th tracking insert fails the whole transaction is
rolled back and the store is left exactly as before the call, with a 500
error response. -/
theorem create_order_transactional (db : DB) (req : CreateReq) (oracle : Oracle)
    (ts : List TrackInput) (hts : reqTrackList req = ts) :
    ((createOrder db req oracle none).1.status = 200 ∧
     (createOrder db req oracle none).2.orders = db.orders ++ [newOrderOf db req oracle] ∧
     (createOrder db req oracle none).2.trackings
       = db.trackings ++ ts.map (mkTracking db.nextId) ∧
     (ts.map (mkTracking db.nextId)).length = ts.length ∧
     (∀ t ∈ ts.map (mkTracking db.nextId), t.order_id = db.nextId)) ∧
    ∀ i, i < ts.length →
      (createOrder db req oracle (some i)).2 = db ∧
      (createOrder db req oracle (some i)).1.status = 500 := by
  refine ⟨⟨?_, ?_, ?_, ?_, ?_⟩, ?_⟩
  · simp [createOrder, insertTrackings]
  · simp [createOrder, insertTrackings]
  · simp [createOrder, insertTrackings, hts]
  · simp
  · intro t ht
    simp [mkTracking] at ht
    obtain ⟨a, _, ha⟩ := ht
    simp [← ha]
  · intro i hi
    constructor
    · simp [createOrder, insertTrackings, hts, hi]
    · simp [createOrder, insertTrackings, hts, hi]

/-- Witness for C1 on a two-tracking request: the success case and the
rollback at a forced failure of the first tracking insert. -/
theorem create_order_transactional_witness :
    ((createOrder db0 reqTwoTracks none none).1.status = 200 ∧
     (createOrder db0 reqTwoTracks none none).2.orders
       = db0.orders ++ [newOrderOf db0 reqTwoTracks none] ∧
     (createOrder db0 reqTwoTracks none none).2.trackings
       = db0.trackings ++ [trackA, trackB].map (mkTracking db0.nextId)) ∧
    ((createOrder db0 reqTwoTracks none (some 0)).2 = db0 ∧
     (createOrder db0 reqTwoTracks none (some 0)).1.status = 500) := by
  obtain ⟨⟨h1, h2, h3, _, _⟩, hfail⟩ :=
    create_order_transactional db0 reqTwoTracks none [trackA, trackB] rfl
  exact ⟨⟨h1, h2, h3⟩, hfail 0 (by decide)⟩

/-- C2: when the oracle call fails (modelled by `none`: network error,
malformed response, missing rate field), the resolver returns the hardcoded
fallback 26.60 instead of propagating the error, the rate quote answers
that fallback, and order creation still succeeds and stores it. -/
theorem oracle_failure_falls_back (db : DB) (req : CreateReq)
    (hcur : req.currency = some "USD") (hcr : req.custom_rate = none) :
    getDollarRate none = 266 / 10 ∧
    (rateQuote none).fields = [("rate", .num (266 / 10))] ∧
    resolveRate req none = some (266 / 10) ∧
    (createOrder db req none none).1.status = 200 ∧
    (newOrderOf db req none).exchange_rate = some (266 / 10) ∧
    (createOrder db req none none).2.orders = db.orders ++ [newOrderOf db req none] := by
  refine ⟨rfl, rfl, ?_, ?_, ?_, ?_⟩
  · simp [resolveRate, hcur, hcr, getDollarRate]
  · simp [createOrder, insertTrackings]
  · simp [newOrderOf, resolveRate, hcur, hcr, getDollarRate]
  · simp [createOrder, insertTrackings]

/-- Witness for C2 at a concrete USD request with a failing oracle. -/
theorem oracle_failure_falls_back_witness :
    getDollarRate none = 266 / 10 ∧
    (createOrder db0 reqUsdNoCustom none none).1.status = 200 ∧
    (newOrderOf db0 reqUsdNoCustom none).exchange_rate = some (266 / 10) := by
  obtain ⟨h1, _, _, h4, h5, _⟩ := oracle_failure_falls_back db0 reqUsdNoCustom rfl rfl
  exact ⟨h1, h4, h5⟩

/-- C7: for every create-order request whose currency is not "USD" (the
local currency "HNL" or an absent currency field), the stored exchange rate
is exactly 1 and no oracle call is made: the outcome is independent of the
oracle, and creation succeeds. -/
theorem local_currency_rate_one (db : DB) (req : CreateReq) (oracle : Oracle)
    (hcur : ¬ req.currency = some "USD") :
    resolveRate req oracle = some 1 ∧
    (newOrderOf db req oracle).exchange_rate = some 1 ∧
    (∀ o1 o2 : Oracle, createOrder db req o1 none = createOrder db req o2 none) ∧
    (createOrder db req oracle none).1.status = 200 := by
  have hres : ∀ o : Oracle, resolveRate req o = some 1 := by
    intro o
    simp [resolveRate, hcur]
  refine ⟨hres oracle, by simp [newOrderOf, hres oracle], ?_, ?_⟩
  · intro o1 o2
    simp [createOrder, newOrderOf, hres o1, hres o2]
  · simp [createOrder, insertTrackings]

/-- Witness for C7 at an explicit "HNL" request and at a request with no
currency field. -/
theorem local_currency_rate_one_witness :
    resolveRate reqTwoTracks (some 26) = some 1 ∧
    resolveRate reqMissingAmount none = some 1 ∧
    (createOrder db0 reqTwoTracks (some 26) none).1.status = 200 ∧
    createOrder db0 reqMissingAmount none none
      = createOrder db0 reqMissingAmount (some 30) none := by
  obtain ⟨ha1, _, _, ha4⟩ := local_currency_rate_one db0 reqTwoTracks (some 26) (by decide)
  obtain ⟨hb1, _, hb3, _⟩ := local_currency_rate_one db0 reqMissingAmount none (by decide)
  exact ⟨ha1, hb1, ha4, hb3 none (some 30)⟩

/-- C10: a falsy custom rate (the number 0, the empty string, or null) is
ignored: the call behaves exactly as if `custom_rate` had been omitted,
and for currency "USD" the rate is resolved from the oracle (with
fallback). -/
theorem falsy_custom_rate_ignored (db : DB) (req : CreateReq) (oracle : Oracle)
    (failIdx : Option Nat) (v : Json)
    (hcr : req.custom_rate = some v) (hv : v.truthy = false) :
    createOrder db req oracle failIdx
      = createOrder db { req with custom_rate := none } oracle failIdx ∧
    Json.truthy (.num 0) = false ∧
    Json.truthy (.str "") = false ∧
    Json.truthy .null = false ∧
    (req.currency = some "USD" → resolveRate req oracle = some (getDollarRate oracle)) := by
  have hres : resolveRate req oracle = resolveRate { req with custom_rate := none } oracle := by
    simp [resolveRate, hcr, hv]
  refine ⟨?_, by decide, by decide, rfl, ?_⟩
  · simp [createOrder, newOrderOf, reqTrackList, hres]
  · intro hcur
    simp [resolveRate, hcur, hcr, hv]

/-- Witness for C10 with `custom_rate` equal to the number 0. -/
theorem falsy_custom_rate_ignored_witness :
    createOrder db0 reqUsdZeroRate none none
      = createOrder db0 { reqUsdZeroRate with custom_rate := none } none none ∧
    resolveRate reqUsdZeroRate none = some (getDollarRate none) := by
  obtain ⟨h1, _, _, _, h5⟩ :=
    falsy_custom_rate_ignored db0 reqUsdZeroRate none none (.num 0) rfl (by decide)
  exact ⟨h1, h5 rfl⟩

/-- C8: the financials update answers success, leaves the tracking table and
the id sequence untouched, rewrites only the matching order row, and on
that row changes only `original_amount`, `freight_cost_hnl` and
`selling_price_hnl` (the last two defaulting to 0 when omitted) while
`currency`, `exchange_rate`, `id` and `purchase_date` are unchanged; an id
matching no order leaves the store exactly as it was. -/
theorem financials_update_frame (db : DB) (id : Nat) (req : FinReq) :
    (updateFinancials db id req).1.status = 200 ∧
    (updateFinancials db id req).2.trackings = db.trackings ∧
    (updateFinancials db id req).2.nextId = db.nextId ∧
    (updateFinancials db id req).2.orders
      = db.orders.map (fun o => if o.id = id then updFinancialsRow req o else o) ∧
    (∀ o : Order, (updFinancialsRow req o).currency = o.currency ∧
      (updFinancialsRow req o).exchange_rate = o.exchange_rate ∧
      (updFinancialsRow req o).id = o.id ∧
      (updFinancialsRow req o).purchase_date = o.purchase_date ∧
      (updFinancialsRow req o).original_amount = req.original_amount ∧
      (updFinancialsRow req o).freight_cost_hnl = jsOr0 req.freight_cost_hnl ∧
      (updFinancialsRow req o).selling_price_hnl = jsOr0 req.selling_price_hnl) ∧
    jsOr0 none = 0 ∧
    ((∀ o ∈ db.orders, ¬ o.id = id) → (updateFinancials db id req).2 = db) := by
  refine ⟨rfl, rfl, rfl, rfl, ?_, rfl, ?_⟩
  · intro o
    exact ⟨rfl, rfl, rfl, rfl, rfl, rfl, rfl⟩
  · intro h
    have hmap : ∀ l : List Order, (∀ o ∈ l, ¬ o.id = id) →
        l.map (fun o => if o.id = id then updFinancialsRow req o else o) = l := by
      intro l
      induction l with
      | nil => intro _; rfl
      | cons x xs ih =>
          intro hl
          simp only [List.map_cons]
          rw [if_neg (hl x (List.mem_cons_self x xs)),
            ih (fun o ho => hl o (List.mem_cons_of_mem x ho))]
    show { db with orders := _ } = db
    rw [hmap db.orders h]

/-- Witness for C8: updating a missing id (99) leaves the one-order store
unchanged, updating the present id rewrites it as stated, and an omitted
freight cost defaults to 0. -/
theorem financials_update_frame_witness :
    (updateFinancials dbOneOrder 99 finReq0).2 = dbOneOrder ∧
    (updateFinancials dbOneOrder 99 finReq0).1.status = 200 ∧
    (updateFinancials dbOneOrder 1 finReq0).2.orders
      = dbOneOrder.orders.map
          (fun o => if o.id = 1 then updFinancialsRow finReq0 o else o) ∧
    jsOr0 none = 0 := by
  obtain ⟨h1, _, _, _, _, h6, h7⟩ := financials_update_frame dbOneOrder 99 finReq0
  exact ⟨h7 (by decide), h1,
    (financials_update_frame dbOneOrder 1 finReq0).2.2.2.1, h6⟩

/-- C9: the delete-order route removes the trackings first (after the first
DELETE the trackings referencing the id are gone while the orders table is
untouched), then the order row; afterwards no tracking references the
deleted id and the order is gone, the response is success, and deleting an
id that matches nothing leaves the store exactly as it was. -/
theorem delete_order_cascades (db : DB) (id : Nat) :
    (deleteTrackingsOf db id).orders = db.orders ∧
    (∀ t ∈ (deleteTrackingsOf db id).trackings, ¬ t.order_id = id) ∧
    (deleteOrder db id).2 = deleteOrderRow (deleteTrackingsOf db id) id ∧
    (deleteOrder db id).2.trackings = db.trackings.filter (fun t => ¬ t.order_id = id) ∧
    (deleteOrder db id).2.orders = db.orders.filter (fun o => ¬ o.id = id) ∧
    (∀ t ∈ (deleteOrder db id).2.trackings, ¬ t.order_id = id) ∧
    (∀ o ∈ (deleteOrder db id).2.orders, ¬ o.id = id) ∧
    (deleteOrder db id).1.status = 200 ∧
    ((∀ o ∈ db.orders, ¬ o.id = id) → (∀ t ∈ db.trackings, ¬ t.order_id = id) →
      (deleteOrder db id).2 = db) := by
  refine ⟨rfl, ?_, rfl, rfl, rfl, ?_, ?_, rfl, ?_⟩
  · intro t ht
    simpa using (List.mem_filter.mp ht).2
  · intro t ht
    simpa using (List.mem_filter.mp ht).2
  · intro o ho
    simpa using (List.mem_filter.mp ho).2
  · intro ho ht
    have h1 : db.trackings.filter (fun t => ¬ t.order_id = id) = db.trackings :=
      List.filter_eq_self.mpr (fun a ha => by simpa using ht a ha)
    have h2 : db.orders.filter (fun o => ¬ o.id = id) = db.orders :=
      List.filter_eq_self.mpr (fun a ha => by simpa using ho a ha)
    show deleteOrderRow (deleteTrackingsOf db id) id = db
    rw [show deleteOrderRow (deleteTrackingsOf db id) id =
        { db with orders := db.orders.filter (fun o => ¬ o.id = id),
                  trackings := db.trackings.filter (fun t => ¬ t.order_id = id) } from rfl,
      h1, h2]

/-- Witness for C9: deleting order 1 from a store with one order and one
tracking empties both tables; deleting the missing id 99 changes
nothing. -/
theorem delete_order_cascades_witness :
    (deleteOrder dbOrderWithTrack 1).2.trackings = [] ∧
    (deleteOrder dbOrderWithTrack 1).2.orders = [] ∧
    (deleteOrder dbOrderWithTrack 1).1.status = 200 ∧
    (deleteOrder dbOrderWithTrack 99).2 = dbOrderWithTrack := by
  obtain ⟨_, _, _, h4, h5, _, _, h8, _⟩ := delete_order_cascades dbOrderWithTrack 1
  obtain ⟨_, _, _, _, _, _, _, _, h9⟩ := delete_order_cascades dbOrderWithTrack 99
  exact ⟨h4.trans (by decide), h5.trans (by decide), h8, h9 (by decide) (by decide)⟩

end

end Shein
